import Mathlib

/-!
Verification of the slang compilation driver (Driver.cpp): option
processing, command files, source loading and the preprocessor mode.

The definitions below are a shallow embedding of `slang::driver::Driver`
from Driver.cpp.  Services that live outside the given sources (the
diagnostic engine's compiled-in warning table, `setWarningOptions`,
`TimeScale::fromString`, the random generator utilities, filesystem
queries) appear as explicit parameters or as definitions modelled from
the specification, each marked in its doc comment.
-/

namespace SlangDriver

/-- Diagnostic severities, as held by the diagnostic engine's severity
table. -/
inductive Severity
  | Ignored
  | Note
  | Warning
  | Error
  | Fatal
deriving DecidableEq, Repr

/-- The diagnostic codes that Driver.cpp manipulates explicitly, plus a
catch-all constructor standing for every other diagnostic kind. -/
inductive DiagCode
  | DuplicateDefinition
  | BadProceduralForce
  | StaticInitializerMustBeExplicit
  | ImplicitConvert
  | BadFinishNum
  | NonstandardSysFunc
  | NonstandardForeach
  | NonstandardDist
  | IndexOOB
  | RangeOOB
  | RangeWidthOOB
  | ImplicitNamedPortTypeMismatch
  | SplitDistWeightOp
  | OtherDiag (n : Nat)
deriving DecidableEq, Repr

/-- `DiagnosticEngine::setSeverity`: point update of the severity table. -/
def setSeverity (t : DiagCode → Severity) (d : DiagCode) (s : Severity) :
    DiagCode → Severity :=
  fun x => if x = d then s else t x

/-- Apply a list of severity assignments in order. -/
def applySeverities (t : DiagCode → Severity) (l : List (DiagCode × Severity)) :
    DiagCode → Severity :=
  l.foldl (fun acc p => setSeverity acc p.1 p.2) t

/-- The last severity assigned to `d` by a list of assignments, if any. -/
def lastAssignment (l : List (DiagCode × Severity)) (d : DiagCode) :
    Option Severity :=
  l.foldl (fun acc p => if p.1 = d then some p.2 else acc) none

/-- The two overrides applied unconditionally by `processOptions`
(Driver.cpp lines 373-375). -/
def mandatoryOverrides : List (DiagCode × Severity) :=
  [(.DuplicateDefinition, .Error), (.BadProceduralForce, .Error)]

/-- The six severities ignored in vcs compatibility mode
(Driver.cpp lines 377-384). -/
def vcsCompatIgnores : List (DiagCode × Severity) :=
  [(.StaticInitializerMustBeExplicit, .Ignored), (.ImplicitConvert, .Ignored),
   (.BadFinishNum, .Ignored), (.NonstandardSysFunc, .Ignored),
   (.NonstandardForeach, .Ignored), (.NonstandardDist, .Ignored)]

/-- The five warnings promoted to errors outside vcs compatibility mode
(Driver.cpp lines 385-393). -/
def defaultPromotions : List (DiagCode × Severity) :=
  [(.IndexOOB, .Error), (.RangeOOB, .Error), (.RangeWidthOOB, .Error),
   (.ImplicitNamedPortTypeMismatch, .Error), (.SplitDistWeightOp, .Error)]

/-- The severity-table configuration performed by `processOptions`
(Driver.cpp lines 365-410), written exactly in the source's order:
`setDefaultWarnings`, the two mandatory overrides, the compat branch,
and last the user's `-W` assignments. -/
def configureSeverities (defaults : DiagCode → Severity) (compatIsVcs : Bool)
    (userW : List (DiagCode × Severity)) : DiagCode → Severity :=
  let t0 := defaults
  let t1 := setSeverity t0 .DuplicateDefinition .Error
  let t2 := setSeverity t1 .BadProceduralForce .Error
  let t3 :=
    if compatIsVcs then
      let a1 := setSeverity t2 .StaticInitializerMustBeExplicit .Ignored
      let a2 := setSeverity a1 .ImplicitConvert .Ignored
      let a3 := setSeverity a2 .BadFinishNum .Ignored
      let a4 := setSeverity a3 .NonstandardSysFunc .Ignored
      let a5 := setSeverity a4 .NonstandardForeach .Ignored
      setSeverity a5 .NonstandardDist .Ignored
    else
      let b1 := setSeverity t2 .IndexOOB .Error
      let b2 := setSeverity b1 .RangeOOB .Error
      let b3 := setSeverity b2 .RangeWidthOOB .Error
      let b4 := setSeverity b3 .ImplicitNamedPortTypeMismatch .Error
      setSeverity b4 .SplitDistWeightOp .Error
  applySeverities t3 userW

/-- The driver's option set (`Driver::Options`), with the fields read by
the functions modelled here.  `none` for an optional field means the
option was not given on the command line. -/
structure Options where
  includeDirs : List String
  includeSystemDirs : List String
  libDirs : List String
  libExts : List String
  excludeExts : List String
  defines : List String
  undefines : List String
  maxIncludeDepth : Option Nat
  librariesInheritMacros : Option Bool
  ignoreDirectives : List String
  maxParseDepth : Option Nat
  maxLexerErrors : Option Nat
  numThreads : Option Nat
  maxInstanceDepth : Option Nat
  maxGenerateSteps : Option Nat
  maxConstexprDepth : Option Nat
  maxConstexprSteps : Option Nat
  maxConstexprBacktrace : Option Nat
  maxInstanceArray : Option Nat
  compat : Option String
  minTypMax : Option String
  timeScale : Option String
  allowUseBeforeDeclare : Option Bool
  ignoreUnknownModules : Option Bool
  relaxEnumConversions : Option Bool
  allowHierarchicalConst : Option Bool
  allowDupInitialDrivers : Option Bool
  strictDriverChecking : Option Bool
  onlyLint : Option Bool
  topModules : List String
  paramOverrides : List String
  warningOptions : List String
  errorLimit : Option Nat
  suppressWarningsPaths : List String
  suppressMacroWarningsPaths : List String
  singleUnit : Option Bool
  libraryFiles : List String
deriving DecidableEq, Repr

/-- An option set with nothing given, used to build concrete inputs. -/
def emptyOptions : Options :=
  { includeDirs := [], includeSystemDirs := [], libDirs := [], libExts := []
    excludeExts := [], defines := [], undefines := [], maxIncludeDepth := none
    librariesInheritMacros := none, ignoreDirectives := [], maxParseDepth := none
    maxLexerErrors := none, numThreads := none, maxInstanceDepth := none
    maxGenerateSteps := none, maxConstexprDepth := none, maxConstexprSteps := none
    maxConstexprBacktrace := none, maxInstanceArray := none, compat := none
    minTypMax := none, timeScale := none, allowUseBeforeDeclare := none
    ignoreUnknownModules := none, relaxEnumConversions := none
    allowHierarchicalConst := none, allowDupInitialDrivers := none
    strictDriverChecking := none, onlyLint := none, topModules := []
    paramOverrides := [], warningOptions := [], errorLimit := none
    suppressWarningsPaths := [], suppressMacroWarningsPaths := []
    singleUnit := none, libraryFiles := [] }

/-- The source loader's recorded state: file patterns from positional
arguments, library files from `-v`, and search directories/extensions. -/
structure SourceLoaderState where
  filePatterns : List String
  libraryFilesList : List (String × String)
  searchDirectories : List String
  searchExtensions : List String
deriving DecidableEq, Repr

/-- `SourceLoader::addFiles`: record a positional file pattern. -/
def SourceLoaderState.addFiles (s : SourceLoaderState) (pattern : String) :
    SourceLoaderState :=
  { s with filePatterns := s.filePatterns ++ [pattern] }

/-- `SourceLoader::addLibraryFiles`: record a library file under a
library name. -/
def SourceLoaderState.addLibraryFiles (s : SourceLoaderState)
    (libName pattern : String) : SourceLoaderState :=
  { s with libraryFilesList := s.libraryFilesList ++ [(libName, pattern)] }

/-- Modelled from the spec: `SourceLoader::hasFiles` is not among the
given sources.  Per spec section 4.4 the loader records file patterns and
library files, and `hasFiles` reports whether any were recorded. -/
def SourceLoaderState.hasFiles (s : SourceLoaderState) : Bool :=
  !s.filePatterns.isEmpty || !s.libraryFilesList.isEmpty

/-- An empty loader, used to build concrete inputs. -/
def emptyLoader : SourceLoaderState :=
  { filePatterns := [], libraryFilesList := [], searchDirectories := []
    searchExtensions := [] }

/-- The extension of a file pattern: the suffix after the last dot, as
computed with `find_last_of` in the positional callback
(Driver.cpp lines 198-200); `none` when the pattern has no dot. -/
def extensionOf (p : String) : Option String :=
  let cs := p.toList
  if cs.contains '.' then
    some (String.mk ((cs.reverse.takeWhile (fun c => c ≠ '.')).reverse))
  else none

/-- The positional file-argument callback registered by
`addStandardArgs` (Driver.cpp lines 195-208): when the exclude-extension
set is nonempty and the pattern's extension belongs to it, the pattern is
dropped; otherwise it is recorded with the source loader. -/
def positionalCallback (excludeExts : List String) (loader : SourceLoaderState)
    (filePattern : String) : SourceLoaderState :=
  if excludeExts.isEmpty then loader.addFiles filePattern
  else
    match extensionOf filePattern with
    | some ext => if ext ∈ excludeExts then loader
                  else loader.addFiles filePattern
    | none => loader.addFiles filePattern

/-- The `-v` registration loop of `processOptions`
(Driver.cpp lines 338-341): every library file is registered, with an
empty library name and no filtering. -/
def registerLibraryFiles (loader : SourceLoaderState) (files : List String) :
    SourceLoaderState :=
  files.foldl (fun l f => l.addLibraryFiles "" f) loader

/-- The errors printed by `processOptions` through `printError`. -/
inductive DriverError
  | invalidCompat (value : String)
  | invalidTiming (value : String)
  | singleUnitRequired
  | invalidTimeScale (value : String)
  | noInputFiles
deriving DecidableEq, Repr

/-- The exact message text each error prints (Driver.cpp lines 304, 311,
316, 321, 350). -/
def DriverError.render : DriverError → String
  | .invalidCompat v => "invalid value for compat option: '" ++ v ++ "'"
  | .invalidTiming v => "invalid value for timing option: '" ++ v ++ "'"
  | .singleUnitRequired => "--single-unit must be set when --libraries-inherit-macros is used"
  | .invalidTimeScale v => "invalid value for time scale option: '" ++ v ++ "'"
  | .noInputFiles => "no input files"

/-- Keep an explicitly set option, default it to true otherwise
(the `if (!opt.has_value()) opt = true;` pattern of the vcs branch). -/
def defaultTrue : Option Bool → Option Bool
  | none => some true
  | some b => some b

/-- The compat validation of `processOptions` (Driver.cpp lines
294-307): only "vcs" is accepted, and it defaults three fine-grained
options to true when they were not explicitly set. -/
def checkCompat (o : Options) : Except DriverError Options :=
  match o.compat with
  | none => .ok o
  | some c =>
    if c = "vcs" then
      .ok { o with
        allowHierarchicalConst := defaultTrue o.allowHierarchicalConst
        allowUseBeforeDeclare := defaultTrue o.allowUseBeforeDeclare
        relaxEnumConversions := defaultTrue o.relaxEnumConversions }
    else .error (.invalidCompat c)

/-- The timing validation (Driver.cpp lines 309-313). -/
def checkTiming (o : Options) : Except DriverError Options :=
  match o.minTypMax with
  | none => .ok o
  | some t =>
    if t = "min" ∨ t = "typ" ∨ t = "max" then .ok o
    else .error (.invalidTiming t)

/-- The `--libraries-inherit-macros` / `--single-unit` coupling check
(Driver.cpp lines 315-318). -/
def checkLibInheritMacros (o : Options) : Except DriverError Options :=
  if o.librariesInheritMacros = some true ∧ o.singleUnit.getD false = false then
    .error .singleUnitRequired
  else .ok o

/-- The time-scale validation (Driver.cpp lines 320-323);
`TimeScale::fromString` is outside the given sources, so its success is
the parameter `tsValid`. -/
def checkTimeScale (tsValid : String → Bool) (o : Options) :
    Except DriverError Options :=
  match o.timeScale with
  | none => .ok o
  | some ts => if tsValid ts then .ok o else .error (.invalidTimeScale ts)

/-- The lint-only default (Driver.cpp lines 325-326). -/
def applyLintDefault (o : Options) : Options :=
  if o.onlyLint = some true ∧ o.ignoreUnknownModules = none then
    { o with ignoreUnknownModules := some true }
  else o

/-- The driver's externally provided services: time-scale parsing,
directory existence, path canonicalization, the engine's compiled-in
default warning table (`setDefaultWarnings`), and the engine's parsing
of user `-W` options into ordered severity assignments
(`setWarningOptions`), all outside the given sources. -/
structure DriverEnv where
  timeScaleValid : String → Bool
  includeDirExists : String → Bool
  systemDirExists : String → Bool
  canonicalPath : String → Option String
  defaultWarningTable : DiagCode → Severity
  parseWarningOptions : List String → List (DiagCode × Severity)

/-- The driver state mutated by `processOptions`. -/
structure DriverState where
  options : Options
  sourceLoader : SourceLoaderState
  anyFailedLoads : Bool
  severityTable : DiagCode → Severity
  engineErrorLimit : Nat
  ignorePaths : List String
  ignoreMacroPaths : List String
  errors : List DriverError
  warningsLog : List String

/-- Append a printed error to the state. -/
def pushError (st : DriverState) (e : DriverError) : DriverState :=
  { st with errors := st.errors ++ [e] }

/-- The include-directory warnings of `processOptions`
(Driver.cpp lines 328-336): one per nonexistent directory. -/
def includeDirWarnings (env : DriverEnv) (o : Options) : List String :=
  (o.includeDirs.filter (fun d => !env.includeDirExists d)).map
    (fun d => "include directory '" ++ d ++ "' does not exist")
  ++ (o.includeSystemDirs.filter (fun d => !env.systemDirExists d)).map
    (fun d => "include directory '" ++ d ++ "' does not exist")

/-- The source-loader registrations of `processOptions`
(Driver.cpp lines 338-344): `-v` library files, then search
directories and extensions. -/
def loaderAfterRegistration (loader : SourceLoaderState) (o : Options) :
    SourceLoaderState :=
  let loader1 := registerLibraryFiles loader o.libraryFiles
  { loader1 with
    searchDirectories := loader1.searchDirectories ++ o.libDirs
    searchExtensions := loader1.searchExtensions ++ o.libExts }

/-- The state produced by a fully successful `processOptions`
(Driver.cpp lines 354-412): registrations done, the engine error limit
set to the user value or 20, and the severity table configured. -/
def successState (env : DriverEnv) (st : DriverState) (o : Options) :
    DriverState :=
  { st with
    options := o
    sourceLoader := loaderAfterRegistration st.sourceLoader o
    warningsLog := st.warningsLog ++ includeDirWarnings env o
    engineErrorLimit := o.errorLimit.getD 20
    severityTable :=
      configureSeverities env.defaultWarningTable
        (decide (o.compat = some "vcs"))
        (env.parseWarningOptions o.warningOptions)
    ignorePaths :=
      st.ignorePaths ++ o.suppressWarningsPaths.filterMap env.canonicalPath
    ignoreMacroPaths :=
      st.ignoreMacroPaths ++ o.suppressMacroWarningsPaths.filterMap env.canonicalPath }

/-- The tail of `processOptions` after all validations pass
(Driver.cpp lines 325-412): lint defaults, include-directory warnings,
library-file and search-path registration, the failed-loads and
no-input-files checks, and engine configuration. -/
def finishOptions (env : DriverEnv) (st : DriverState) (o0 : Options) :
    Bool × DriverState :=
  let o := applyLintDefault o0
  let loader2 := loaderAfterRegistration st.sourceLoader o
  let st1 := { st with
    options := o
    sourceLoader := loader2
    warningsLog := st.warningsLog ++ includeDirWarnings env o }
  if st.anyFailedLoads then (false, st1)
  else if loader2.hasFiles = false then (false, pushError st1 .noInputFiles)
  else (true, successState env st o)

/-- Continuation of `processOptions` after the time-scale check:
an error is printed against the options mutated so far; otherwise the
run continues into the tail. -/
def afterTimeScale (env : DriverEnv) (st : DriverState) (o3 : Options)
    (r : Except DriverError Options) : Bool × DriverState :=
  match r with
  | .error e => (false, pushError { st with options := o3 } e)
  | .ok o4 => finishOptions env st o4

/-- Continuation of `processOptions` after the
libraries-inherit-macros check. -/
def afterLibInherit (env : DriverEnv) (st : DriverState) (o2 : Options)
    (r : Except DriverError Options) : Bool × DriverState :=
  match r with
  | .error e => (false, pushError { st with options := o2 } e)
  | .ok o3 => afterTimeScale env st o3 (checkTimeScale env.timeScaleValid o3)

/-- Continuation of `processOptions` after the timing check. -/
def afterTiming (env : DriverEnv) (st : DriverState) (o1 : Options)
    (r : Except DriverError Options) : Bool × DriverState :=
  match r with
  | .error e => (false, pushError { st with options := o1 } e)
  | .ok o2 => afterLibInherit env st o2 (checkLibInheritMacros o2)

/-- Continuation of `processOptions` after the compat check; a compat
error is printed against the unmodified options. -/
def afterCompat (env : DriverEnv) (st : DriverState)
    (r : Except DriverError Options) : Bool × DriverState :=
  match r with
  | .error e => (false, pushError st e)
  | .ok o1 => afterTiming env st o1 (checkTiming o1)

/-- `Driver::processOptions` (Driver.cpp lines 281-413): the four
validations in source order, then the tail.  Terminal color
configuration (lines 282-292, 354-362) only touches the output device
and is not modelled.  Returns the success flag and the mutated driver
state; a failed validation leaves every mutation made before it in
place, as the C++ member updates do. -/
def processOptions (env : DriverEnv) (st : DriverState) : Bool × DriverState :=
  afterCompat env st (checkCompat st.options)

/-! ## The option bag (`Driver::createOptionBag`, Driver.cpp lines 537-620)

A field the driver assigns only conditionally is modelled as an
`Option`, where `none` means the driver left the default-constructed
value in place. -/

/-- Source options (Driver.cpp lines 538-542). -/
structure SourceOptions where
  numThreads : Option Nat
  singleUnit : Bool
  onlyLint : Bool
  librariesInheritMacros : Bool
deriving DecidableEq, Repr

/-- Preprocessor options (Driver.cpp lines 544-551). -/
structure PreprocessorOptions where
  predefines : List String
  undefines : List String
  predefineSource : String
  maxIncludeDepth : Option Nat
  ignoreDirectives : List String
deriving DecidableEq, Repr

/-- Lexer options (Driver.cpp lines 553-555). -/
structure LexerOptions where
  maxErrors : Option Nat
deriving DecidableEq, Repr

/-- Parser options (Driver.cpp lines 557-559). -/
structure ParserOptions where
  maxRecursionDepth : Option Nat
deriving DecidableEq, Repr

/-- The `min:typ:max` selector. -/
inductive MinTypMax
  | Min
  | Typ
  | Max
deriving DecidableEq, Repr

/-- Compilation options (Driver.cpp lines 561-610). -/
structure CompilationOptions where
  suppressUnused : Bool
  scriptMode : Bool
  lintMode : Option Bool
  maxInstanceDepth : Option Nat
  maxGenerateSteps : Option Nat
  maxConstexprDepth : Option Nat
  maxConstexprSteps : Option Nat
  maxConstexprBacktrace : Option Nat
  maxInstanceArray : Option Nat
  errorLimit : Option Nat
  allowHierarchicalConst : Option Bool
  allowDupInitialDrivers : Option Bool
  relaxEnumConversions : Option Bool
  strictDriverChecking : Option Bool
  ignoreUnknownModules : Option Bool
  allowUseBeforeDeclare : Option Bool
  topModules : List String
  paramOverrides : List String
  minTypMax : Option MinTypMax
  defaultTimeScale : Option String
deriving DecidableEq, Repr

/-- The composite option bag. -/
structure Bag where
  soptions : SourceOptions
  ppoptions : PreprocessorOptions
  loptions : LexerOptions
  poptions : ParserOptions
  coptions : CompilationOptions
deriving DecidableEq, Repr

/-- `Driver::createOptionBag` (Driver.cpp lines 537-620).
`TimeScale::fromString` is outside the given sources and appears as the
parameter `tsParse`. -/
def createOptionBag (tsParse : String → Option String) (o : Options) : Bag :=
  let soptions : SourceOptions :=
    { numThreads := o.numThreads
      singleUnit := o.singleUnit = some true
      onlyLint := o.onlyLint = some true
      librariesInheritMacros := o.librariesInheritMacros = some true }
  let ppoptions : PreprocessorOptions :=
    { predefines := o.defines
      undefines := o.undefines
      predefineSource := "<command-line>"
      maxIncludeDepth := o.maxIncludeDepth
      ignoreDirectives := o.ignoreDirectives }
  let loptions : LexerOptions := { maxErrors := o.maxLexerErrors }
  let poptions : ParserOptions := { maxRecursionDepth := o.maxParseDepth }
  let coptions : CompilationOptions :=
    { suppressUnused := if o.onlyLint = some true then true else false
      scriptMode := false
      lintMode := if o.onlyLint = some true then some true else none
      maxInstanceDepth := o.maxInstanceDepth
      maxGenerateSteps := o.maxGenerateSteps
      maxConstexprDepth := o.maxConstexprDepth
      maxConstexprSteps := o.maxConstexprSteps
      maxConstexprBacktrace := o.maxConstexprBacktrace
      maxInstanceArray := o.maxInstanceArray
      errorLimit := o.errorLimit.map (fun n => n * 2)
      allowHierarchicalConst :=
        if o.allowHierarchicalConst = some true then some true else none
      allowDupInitialDrivers :=
        if o.allowDupInitialDrivers = some true then some true else none
      relaxEnumConversions :=
        if o.relaxEnumConversions = some true then some true else none
      strictDriverChecking :=
        if o.strictDriverChecking = some true then some true else none
      ignoreUnknownModules :=
        if o.ignoreUnknownModules = some true then some true else none
      allowUseBeforeDeclare :=
        if o.allowUseBeforeDeclare = some true then some true else none
      topModules := o.topModules
      paramOverrides := o.paramOverrides
      minTypMax :=
        match o.minTypMax with
        | some "min" => some .Min
        | some "typ" => some .Typ
        | some "max" => some .Max
        | _ => none
      defaultTimeScale :=
        match o.timeScale with
        | some ts => tsParse ts
        | none => none }
  { soptions := soptions, ppoptions := ppoptions, loptions := loptions
    poptions := poptions, coptions := coptions }

/-! ## Command files (`Driver::processCommandFile`, Driver.cpp lines 242-279) -/

/-- Filesystem services used by `processCommandFile`, all outside the
modelled state: `fs::canonical` (`none` on error), `OS::readFile`
(`none` when unreadable; the buffer carries the trailing sentinel byte),
and `parent_path`. -/
structure CommandFileEnv where
  canonicalPath : String → Option String
  readFile : String → Option (List Char)
  parentPath : String → String

/-- `Driver::processCommandFile`.  The working directory is the
process-global state threaded through; `parse` re-enters the command
line parser on the file's contents and may itself move the working
directory (nested command files).  Mirrors the source exactly: the
directory is captured and switched only when `makeRelative` (`-F`), and
restored after the re-parse before the result is inspected. -/
def processCommandFile (env : CommandFileEnv)
    (parse : List Char → String → Bool × String)
    (fileName : String) (makeRelative : Bool) (cwd : String) : Bool × String :=
  match env.canonicalPath fileName with
  | none => (false, cwd)
  | some path =>
    match env.readFile path with
    | none => (false, cwd)
    | some buffer =>
      let currPath := cwd
      let cwd1 := if makeRelative then env.parentPath path else cwd
      let argStr := buffer.dropLast
      let parsed := parse argStr cwd1
      let cwd2 := if makeRelative then currPath else parsed.2
      (parsed.1, cwd2)

/-! ## The preprocessor mode (`Driver::runPreprocessor`,
Driver.cpp lines 415-489) -/

/-- The token kinds the preprocessor loop distinguishes, with a
catch-all for every other kind. -/
inductive TokenKind
  | IntegerBase
  | Identifier
  | IntegerLiteral
  | Question
  | RealLiteral
  | EndOfFile
  | OtherKind
deriving DecidableEq, Repr

/-- A preprocessed token: its kind and its printed text. -/
structure Token where
  kind : TokenKind
  text : String
deriving DecidableEq, Repr

/-- Modelled from the spec: `SyntaxFacts::isPossibleVectorDigit` is not
among the given sources.  Per the spec, the token kinds that can
lexically continue a vector literal after its base count as possible
vector digits; digits "may be lexed initially as an identifier", so
identifier tokens are included alongside the literal kinds. -/
def isPossibleVectorDigit : TokenKind → Bool
  | .IntegerLiteral => true
  | .Question => true
  | .RealLiteral => true
  | .Identifier => true
  | _ => false

/-- The obfuscation alphabet (Driver.cpp lines 417-419): the 62 glyphs
0-9, A-Z, a-z. -/
def alphanumChars : List Char :=
  "0123456789ABCDEFGHIJKLMNOPQRSTUVWXYZabcdefghijklmnopqrstuvwxyz".toList

/-- A random generator over states `σ`: one step yields a natural
number and the next state.  `std::mt19937` is outside the given
sources, so the generator is abstract. -/
structure Rng (σ : Type) where
  next : σ → Nat × σ

/-- Modelled from the spec: `getUniformIntDist` (slang/util/Random.h) is
not among the given sources; it draws a value uniformly in
`[lo, hi]` from the generator, modelled as the next generator output
reduced into the range. -/
def getUniformIntDist {σ : Type} (R : Rng σ) (g : σ) (lo hi : Nat) : Nat × σ :=
  let step := R.next g
  (lo + step.1 % (hi + 1 - lo), step.2)

/-- `generateRandomAlphanumericString` (Driver.cpp lines 415-425):
`len` characters drawn from `alphanumChars` by indices uniform in
`[0, 61]`. -/
def generateRandomAlphanumericString {σ : Type} (R : Rng σ) (g : σ) :
    Nat → List Char × σ
  | 0 => ([], g)
  | n + 1 =>
    let drawn := getUniformIntDist R g 0 (alphanumChars.length - 1)
    let c := alphanumChars.getD drawn.1 ' '
    let rest := generateRandomAlphanumericString R drawn.2 n
    (c :: rest.1, rest.2)

/-- The identifier-obfuscation step of the token loop (Driver.cpp lines
464-472): an identifier is looked up in the obfuscation map; a missing
entry is filled with a fresh 16-character random string.  Other tokens
pass through unchanged. -/
def obfStep {σ : Type} (R : Rng σ) (obfuscateIds : Bool) (t : Token) (g : σ)
    (m : List (String × String)) : Token × σ × List (String × String) :=
  if obfuscateIds ∧ t.kind = .Identifier then
    match m.lookup t.text with
    | some translation => ({ t with text := translation }, g, m)
    | none =>
      let generated := generateRandomAlphanumericString R g 16
      let newName := String.mk generated.1
      ({ t with text := newName }, generated.2, (t.text, newName) :: m)
  else (t, g, m)

/-- The two control states of the token loop: `afterBase` while inside
the do-while that copies possible vector digits verbatim after an
integer-base token (Driver.cpp lines 453-462), `normal` otherwise. -/
inductive PPMode
  | normal
  | afterBase
deriving DecidableEq, Repr

/-- The token loop of `Driver::runPreprocessor` (Driver.cpp lines
451-477), one token per step.  In `normal` mode an integer-base token is
printed and switches to `afterBase`; in `afterBase` mode every possible
vector digit is printed verbatim, and the first other token is handled
normally (obfuscation check, end-of-file check) exactly as the token
falling out of the source's do-while. -/
def ppLoop {σ : Type} (R : Rng σ) (obfuscateIds : Bool) :
    PPMode → List Token → σ → List (String × String) →
    List Token × σ × List (String × String)
  | _, [], g, m => ([], g, m)
  | mode, t :: rest, g, m =>
    if mode = .afterBase ∧ isPossibleVectorDigit t.kind then
      let tail := ppLoop R obfuscateIds .afterBase rest g m
      (t :: tail.1, tail.2)
    else if mode = .normal ∧ t.kind = .IntegerBase then
      let tail := ppLoop R obfuscateIds .afterBase rest g m
      (t :: tail.1, tail.2)
    else
      let stepped := obfStep R obfuscateIds t g m
      if stepped.1.kind = .EndOfFile then ([stepped.1], stepped.2)
      else
        let tail := ppLoop R obfuscateIds .normal rest stepped.2.1 stepped.2.2
        (stepped.1 :: tail.1, tail.2)

/-- The printed output: concatenation of the emitted tokens' text
(`SyntaxPrinter::str`). -/
def renderTokens (ts : List Token) : String :=
  ts.foldl (fun acc t => acc ++ t.text) ""

/-- A buffered preprocessor diagnostic; only its error flag matters to
the driver (`diag.isError()`). -/
structure Diag where
  isError : Bool
deriving DecidableEq, Repr

/-- The outcome of a driver mode: success flag and the text printed to
stdout and stderr. -/
structure RunOutput where
  success : Bool
  stdoutText : List String
  stderrText : List String
deriving DecidableEq, Repr

/-- The diagnostic scan at the end of `runPreprocessor` (Driver.cpp
lines 479-488): at the first buffered error the full report goes to
stderr and the mode fails without emitting the output; otherwise the
preprocessed output goes to stdout. -/
def reportOrEmit (reportAll : String) (output : String) :
    List Diag → RunOutput
  | [] => { success := true, stdoutText := [output ++ "\n"], stderrText := [] }
  | d :: rest =>
    if d.isError then
      { success := false, stdoutText := [], stderrText := [reportAll] }
    else reportOrEmit reportAll output rest

/-- `Driver::runPreprocessor` on an already-lexed token stream: run the
token loop from a fresh obfuscation map, then either report buffered
errors or emit the output.  The preprocessor itself and
`DiagnosticEngine::reportAll` are outside the given sources: the token
stream, the buffered diagnostics and the rendered report text are
inputs. -/
def runPreprocessor {σ : Type} (R : Rng σ) (g : σ) (obfuscateIds : Bool)
    (tokens : List Token) (diagnostics : List Diag) (reportAll : String) :
    RunOutput :=
  let looped := ppLoop R obfuscateIds .normal tokens g []
  reportOrEmit reportAll (renderTokens looped.1) diagnostics

/-! ## Shared concrete inputs for witnesses and counterexamples -/

/-- A degenerate generator whose every draw is zero. -/
def constRng : Rng Unit :=
  { next := fun _ => (0, ()) }

/-- A benign driver environment for concrete runs. -/
def envA : DriverEnv :=
  { timeScaleValid := fun _ => true
    includeDirExists := fun _ => true
    systemDirExists := fun _ => true
    canonicalPath := fun _ => none
    defaultWarningTable := fun _ => .Warning
    parseWarningOptions := fun _ => [(.ImplicitConvert, .Warning)] }

/-- A fresh driver state with no options and an empty loader. -/
def stBase : DriverState :=
  { options := emptyOptions
    sourceLoader := emptyLoader
    anyFailedLoads := false
    severityTable := fun _ => .Warning
    engineErrorLimit := 0
    ignorePaths := []
    ignoreMacroPaths := []
    errors := []
    warningsLog := [] }

/-- A state with one recorded input file, on which `processOptions`
succeeds. -/
def stOk : DriverState :=
  { stBase with sourceLoader :=
      { emptyLoader with filePatterns := ["top.v"] } }

/-! ## Helper lemmas -/

/-- Folding the last-assignment scan from any accumulator. -/
theorem lastAssignment_foldl_acc (l : List (DiagCode × Severity)) (d : DiagCode)
    (acc : Option Severity) :
    l.foldl (fun a p => if p.1 = d then some p.2 else a) acc
      = (lastAssignment l d).or acc := by
  induction l generalizing acc with
  | nil => rfl
  | cons p rest ih =>
    rw [List.foldl_cons, ih]
    have hco : lastAssignment (p :: rest) d
        = (lastAssignment rest d).or (if p.1 = d then some p.2 else none) := by
      unfold lastAssignment
      rw [List.foldl_cons, ih]
      rfl
    rw [hco]
    cases lastAssignment rest d with
    | some s => rfl
    | none =>
      by_cases hp : p.1 = d
      · simp only [if_pos hp]
        rfl
      · simp only [if_neg hp]
        rfl

/-- Applying assignments reads back as the last assignment when there is
one, and the base table otherwise. -/
theorem applySeverities_getD (l : List (DiagCode × Severity))
    (t : DiagCode → Severity) (d : DiagCode) :
    applySeverities t l d = (lastAssignment l d).getD (t d) := by
  induction l generalizing t with
  | nil => rfl
  | cons p rest ih =>
    have h1 : applySeverities t (p :: rest)
        = applySeverities (setSeverity t p.1 p.2) rest := rfl
    have hco : lastAssignment (p :: rest) d
        = (lastAssignment rest d).or (if p.1 = d then some p.2 else none) := by
      unfold lastAssignment
      rw [List.foldl_cons, lastAssignment_foldl_acc]
      rfl
    rw [h1, ih, hco]
    cases lastAssignment rest d with
    | some s => rfl
    | none =>
      by_cases hp : p.1 = d
      · simp only [if_pos hp]
        show setSeverity t p.1 p.2 d = p.2
        unfold setSeverity
        rw [if_pos hp.symm]
      · simp only [if_neg hp]
        show setSeverity t p.1 p.2 d = t d
        unfold setSeverity
        rw [if_neg (fun hdp => hp (Eq.symm hdp))]

/-- The last user assignment of a diagnostic wins. -/
theorem applySeverities_last {l : List (DiagCode × Severity)}
    {t : DiagCode → Severity} {d : DiagCode} {s : Severity}
    (h : lastAssignment l d = some s) :
    applySeverities t l d = s := by
  rw [applySeverities_getD, h]
  rfl

/-- The severity configuration is the composition of the default table,
the mandatory overrides, the compat branch and the user assignments. -/
theorem configureSeverities_eq (defaults : DiagCode → Severity) (b : Bool)
    (w : List (DiagCode × Severity)) :
    configureSeverities defaults b w
      = applySeverities
          (applySeverities
            (applySeverities defaults mandatoryOverrides)
            (if b then vcsCompatIgnores else defaultPromotions))
          w := by
  cases b <;> rfl

/-- A successful timing check returns the options unchanged. -/
theorem checkTiming_ok_eq {o o' : Options} (h : checkTiming o = .ok o') :
    o' = o := by
  unfold checkTiming at h
  split at h
  · injection h with h2
    exact h2.symm
  · split at h
    · injection h with h2
      exact h2.symm
    · exact Except.noConfusion h

/-- A successful library-inherit-macros check returns the options
unchanged. -/
theorem checkLibInheritMacros_ok_eq {o o' : Options}
    (h : checkLibInheritMacros o = .ok o') : o' = o := by
  unfold checkLibInheritMacros at h
  split at h
  · exact Except.noConfusion h
  · injection h with h2
    exact h2.symm

/-- A successful time-scale check returns the options unchanged. -/
theorem checkTimeScale_ok_eq {f : String → Bool} {o o' : Options}
    (h : checkTimeScale f o = .ok o') : o' = o := by
  unfold checkTimeScale at h
  split at h
  · injection h with h2
    exact h2.symm
  · split at h
    · injection h with h2
      exact h2.symm
    · exact Except.noConfusion h

/-- Decomposition of a successful `processOptions` run: the compat check
passed with some resulting options, the other validations changed
nothing, no load had failed, the loader held files at the check, and the
result is exactly the success state. -/
theorem processOptions_success_cases (env : DriverEnv) (st : DriverState)
    (h : (processOptions env st).1 = true) :
    ∃ o1, checkCompat st.options = .ok o1
      ∧ st.anyFailedLoads = false
      ∧ (loaderAfterRegistration st.sourceLoader (applyLintDefault o1)).hasFiles = true
      ∧ processOptions env st = (true, successState env st (applyLintDefault o1)) := by
  unfold processOptions at h
  cases hc : checkCompat st.options with
  | error e => rw [hc] at h; simp [afterCompat] at h
  | ok o1 =>
    rw [hc] at h
    simp only [afterCompat] at h
    cases ht : checkTiming o1 with
    | error e => rw [ht] at h; simp [afterTiming] at h
    | ok o2 =>
      rw [ht] at h
      simp only [afterTiming] at h
      have e2 := (checkTiming_ok_eq ht).symm
      subst e2
      cases hl : checkLibInheritMacros o1 with
      | error e => rw [hl] at h; simp [afterLibInherit] at h
      | ok o3 =>
        rw [hl] at h
        simp only [afterLibInherit] at h
        have e3 := (checkLibInheritMacros_ok_eq hl).symm
        subst e3
        cases hts : checkTimeScale env.timeScaleValid o1 with
        | error e => rw [hts] at h; simp [afterTimeScale] at h
        | ok o4 =>
          rw [hts] at h
          simp only [afterTimeScale] at h
          have e4 := (checkTimeScale_ok_eq hts).symm
          subst e4
          simp only [finishOptions] at h
          by_cases hf : st.anyFailedLoads = true
          · rw [if_pos hf] at h; simp at h
          · have hf2 : st.anyFailedLoads = false := by
              cases hb : st.anyFailedLoads with
              | false => rfl
              | true => exact absurd hb hf
            rw [if_neg hf] at h
            by_cases hh : (loaderAfterRegistration st.sourceLoader
                (applyLintDefault o1)).hasFiles = false
            · rw [if_pos hh] at h; simp at h
            · have hh2 : (loaderAfterRegistration st.sourceLoader
                  (applyLintDefault o1)).hasFiles = true := by
                cases hb : (loaderAfterRegistration st.sourceLoader
                    (applyLintDefault o1)).hasFiles with
                | false => exact absurd hb hh
                | true => rfl
              refine ⟨o1, rfl, hf2, hh2, ?_⟩
              unfold processOptions
              rw [hc]
              simp only [afterCompat]
              rw [ht]
              simp only [afterTiming]
              rw [hl]
              simp only [afterLibInherit]
              rw [hts]
              simp only [afterTimeScale]
              simp only [finishOptions]
              rw [if_neg hf, if_neg hh]

/-- In `afterBase` mode a run of possible vector digits is copied to the
output verbatim, leaving the generator and the obfuscation map
untouched. -/
theorem ppLoop_afterBase_digits {σ : Type} (R : Rng σ) (obf : Bool)
    (ds rest : List Token) (g : σ) (m : List (String × String))
    (hd : ∀ d ∈ ds, isPossibleVectorDigit d.kind = true) :
    ppLoop R obf .afterBase (ds ++ rest) g m
      = (ds ++ (ppLoop R obf .afterBase rest g m).1,
         (ppLoop R obf .afterBase rest g m).2) := by
  induction ds with
  | nil => simp
  | cons d ds ih =>
    have hdd : isPossibleVectorDigit d.kind = true := hd d (by simp)
    have hrest : ∀ x ∈ ds, isPossibleVectorDigit x.kind = true :=
      fun x hx => hd x (by simp [hx])
    simp [ppLoop, hdd, ih hrest]

/-- The diagnostic scan: an error anywhere suppresses the output and
fails; no errors emit the output and succeed. -/
theorem reportOrEmit_spec (reportAll output : String) (diags : List Diag) :
    (diags.any (fun d => d.isError) = true →
      reportOrEmit reportAll output diags
        = { success := false, stdoutText := [], stderrText := [reportAll] })
    ∧ (diags.any (fun d => d.isError) = false →
      reportOrEmit reportAll output diags
        = { success := true, stdoutText := [output ++ "\n"], stderrText := [] }) := by
  induction diags with
  | nil =>
    constructor
    · intro h; exact absurd h (by decide)
    · intro _; rfl
  | cons d rest ih =>
    by_cases hd : d.isError = true
    · constructor
      · intro _
        simp [reportOrEmit, hd]
      · intro h
        rw [List.any_cons, hd, Bool.true_or] at h
        exact absurd h (by decide)
    · have hdf : d.isError = false := by
        cases hfb : d.isError with
        | false => rfl
        | true => exact absurd hfb hd
      constructor
      · intro h
        rw [List.any_cons, hdf, Bool.false_or] at h
        simp [reportOrEmit, hdf, ih.1 h]
      · intro h
        rw [List.any_cons, hdf, Bool.false_or] at h
        simp [reportOrEmit, hdf, ih.2 h]

/-- The last user assignment wins through the whole configuration. -/
theorem configureSeverities_last {defaults : DiagCode → Severity} {b : Bool}
    {w : List (DiagCode × Severity)} {d : DiagCode} {s : Severity}
    (h : lastAssignment w d = some s) :
    configureSeverities defaults b w d = s := by
  rw [configureSeverities_eq]
  exact applySeverities_last h

/-- `registerLibraryFiles` appends every file under the empty library
name and leaves the recorded positional patterns alone. -/
theorem registerLibraryFiles_spec (files : List String)
    (loader : SourceLoaderState) :
    (registerLibraryFiles loader files).libraryFilesList
      = loader.libraryFilesList ++ files.map (fun f => ("", f))
    ∧ (registerLibraryFiles loader files).filePatterns = loader.filePatterns := by
  induction files generalizing loader with
  | nil => simp [registerLibraryFiles]
  | cons f fs ih =>
    have hstep : registerLibraryFiles loader (f :: fs)
        = registerLibraryFiles (loader.addLibraryFiles "" f) fs := rfl
    rw [hstep]
    refine ⟨?_, ?_⟩
    · rw [(ih (loader.addLibraryFiles "" f)).1]
      simp [SourceLoaderState.addLibraryFiles]
    · rw [(ih (loader.addLibraryFiles "" f)).2]
      rfl

/-! ## Claim theorems -/

/-- C1: after a successful `processOptions` call, the engine's severity
table equals the sequential application of `setDefaultWarnings`, then
the two mandatory overrides, then — when compat is vcs — the six vcs
ignores, otherwise the five default promotions, and finally the user's
`-W` assignments; in particular the user's last assignment for a
diagnostic always takes final precedence. -/
theorem processOptions_severity_order (env : DriverEnv) (st : DriverState)
    (h : (processOptions env st).1 = true) :
    ((processOptions env st).2.severityTable
      = applySeverities
          (applySeverities
            (applySeverities env.defaultWarningTable mandatoryOverrides)
            (if (processOptions env st).2.options.compat = some "vcs" then
              vcsCompatIgnores else defaultPromotions))
          (env.parseWarningOptions (processOptions env st).2.options.warningOptions))
    ∧ ∀ d s,
        lastAssignment
          (env.parseWarningOptions
            (processOptions env st).2.options.warningOptions) d = some s →
        (processOptions env st).2.severityTable d = s := by
  obtain ⟨o1, _, _, _, heq⟩ := processOptions_success_cases env st h
  rw [heq]
  constructor
  · simp only [successState]
    by_cases hv : (applyLintDefault o1).compat = some "vcs"
    · rw [if_pos hv, configureSeverities_eq]
      simp [hv]
    · rw [if_neg hv, configureSeverities_eq]
      simp [hv]
  · intro d s hds
    simp only [successState] at hds ⊢
    exact configureSeverities_last hds

/-- C1 witness: a successful concrete run in which the user's `-W`
assignment downgrades ImplicitConvert back to a warning. -/
theorem processOptions_severity_order_witness :
    (processOptions envA stOk).2.severityTable .ImplicitConvert
      = .Warning :=
  (processOptions_severity_order envA stOk (by decide)).2
    .ImplicitConvert .Warning (by decide)

/-- C2 (amended): when `--error-limit` is explicitly set to `n`, the
compilation options in the bag carry exactly `2 * n`; when it is unset,
`createOptionBag` leaves the compilation error limit at its compiled-in
default instead of doubling the engine default; and a successful
`processOptions` sets the engine's printed-error limit to the user value
with 20 as the default (0, doubled or not, still disables the limits). -/
theorem errorLimit_doubling (tsParse : String → Option String)
    (o o2 : Options) (n : Nat) (env : DriverEnv) (st : DriverState)
    (hn : o.errorLimit = some n)
    (h2 : o2.errorLimit = none)
    (hs : (processOptions env st).1 = true) :
    (createOptionBag tsParse o).coptions.errorLimit = some (n * 2)
    ∧ (createOptionBag tsParse o2).coptions.errorLimit = none
    ∧ (processOptions env st).2.engineErrorLimit
        = (processOptions env st).2.options.errorLimit.getD 20 := by
  refine ⟨?_, ?_, ?_⟩
  · simp [createOptionBag, hn]
  · simp [createOptionBag, h2]
  · obtain ⟨o1, _, _, _, heq⟩ := processOptions_success_cases env st hs
    rw [heq]
    rfl

/-- C2 counterexample: with `--error-limit` unset the claimed relation
fails — the user-facing limit defaults to 20, twice that is 40, yet the
bag's compilation error limit is not set to 40 (the driver leaves the
compiled-in default in place). -/
theorem errorLimit_doubling_cex :
    emptyOptions.errorLimit = none
    ∧ (createOptionBag (fun _ => none) emptyOptions).coptions.errorLimit ≠ some 40
    ∧ (createOptionBag (fun _ => none) emptyOptions).coptions.errorLimit = none := by
  refine ⟨rfl, ?_, rfl⟩
  decide

/-- C9: the exclude-ext filter applies only to positional file
arguments — a positional pattern whose extension is in the set is
dropped and never recorded, others are recorded — while every `-v`
library file is registered with the loader with no exclude-ext
filtering at all. -/
theorem excludeExt_positional_only (excludeExts : List String)
    (loader : SourceLoaderState) (p e : String)
    (env : DriverEnv) (st : DriverState)
    (h1 : extensionOf p = some e) (h2 : e ∈ excludeExts)
    (hs : (processOptions env st).1 = true) :
    positionalCallback excludeExts loader p = loader
    ∧ (∀ q, (∀ x, extensionOf q = some x → x ∉ excludeExts) →
        positionalCallback excludeExts loader q = loader.addFiles q)
    ∧ (processOptions env st).2.sourceLoader.libraryFilesList
        = st.sourceLoader.libraryFilesList
          ++ (processOptions env st).2.options.libraryFiles.map (fun f => ("", f)) := by
  have hne : excludeExts.isEmpty = false := by
    cases excludeExts with
    | nil => cases h2
    | cons a l => rfl
  refine ⟨?_, ?_, ?_⟩
  · unfold positionalCallback
    rw [if_neg (by simp [hne]), h1]
    show (if e ∈ excludeExts then loader else loader.addFiles p) = loader
    rw [if_pos h2]
  · intro q hq
    unfold positionalCallback
    rw [if_neg (by simp [hne])]
    cases hx : extensionOf q with
    | none => rfl
    | some x =>
      show (if x ∈ excludeExts then loader else loader.addFiles q)
        = loader.addFiles q
      rw [if_neg (hq x hx)]
  · obtain ⟨o1, _, _, _, heq⟩ := processOptions_success_cases env st hs
    rw [heq]
    show (successState env st (applyLintDefault o1)).sourceLoader.libraryFilesList
      = st.sourceLoader.libraryFilesList
        ++ (successState env st (applyLintDefault o1)).options.libraryFiles.map
            (fun f => ("", f))
    simp only [successState, loaderAfterRegistration]
    exact (registerLibraryFiles_spec (applyLintDefault o1).libraryFiles
      st.sourceLoader).1

/-- C9 witness: with exclude-ext set `{sv}`, the positional `a.sv` is
dropped, the positional `b.v` is recorded, and the `-v` library file of
a successful run is registered regardless. -/
theorem excludeExt_positional_only_witness :
    positionalCallback ["sv"] emptyLoader "a.sv" = emptyLoader
    ∧ positionalCallback ["sv"] emptyLoader "b.v" = emptyLoader.addFiles "b.v"
    ∧ (processOptions envA stOk).2.sourceLoader.libraryFilesList
        = stOk.sourceLoader.libraryFilesList
          ++ (processOptions envA stOk).2.options.libraryFiles.map
              (fun f => ("", f)) :=
  ⟨(excludeExt_positional_only ["sv"] emptyLoader "a.sv" "sv" envA stOk
      (by decide) (by decide) (by decide)).1,
   (excludeExt_positional_only ["sv"] emptyLoader "a.sv" "sv" envA stOk
      (by decide) (by decide) (by decide)).2.1 "b.v"
      (by
        intro x hx
        rw [show extensionOf "b.v" = some "v" from by decide] at hx
        injection hx with hx2
        subst hx2
        decide),
   (excludeExt_positional_only ["sv"] emptyLoader "a.sv" "sv" envA stOk
      (by decide) (by decide) (by decide)).2.2⟩

/-- A state whose options carry an invalid compat value together with
`--libraries-inherit-macros` and no `--single-unit`. -/
def stLibBad : DriverState :=
  { stBase with options := { emptyOptions with
      compat := some "foo", librariesInheritMacros := some true } }

/-- C3 counterexample: an invocation with `--libraries-inherit-macros`
set and `--single-unit` unset on which the printed message is not the
single-unit message — the invalid compat value is reported first. -/
theorem processOptions_libinherit_cex :
    stLibBad.options.librariesInheritMacros = some true
    ∧ stLibBad.options.singleUnit = none
    ∧ (processOptions envA stLibBad).2.errors.map DriverError.render
        ≠ ["--single-unit must be set when --libraries-inherit-macros is used"]
    ∧ (processOptions envA stLibBad).2.errors.map DriverError.render
        = ["invalid value for compat option: 'foo'"] := by
  decide

/-- C3 (amended): for every invocation that passes the earlier compat
and timing validations, when `--libraries-inherit-macros` is true and
`--single-unit` is not set true, `processOptions` prints exactly the
single-unit error message, returns false, and has registered nothing
with the source loader. -/
theorem processOptions_libinherit (env : DriverEnv) (st : DriverState)
    (hc : st.options.compat = none ∨ st.options.compat = some "vcs")
    (ht : st.options.minTypMax = none ∨ st.options.minTypMax = some "min"
          ∨ st.options.minTypMax = some "typ" ∨ st.options.minTypMax = some "max")
    (hl : st.options.librariesInheritMacros = some true)
    (hsu : st.options.singleUnit.getD false = false) :
    (processOptions env st).1 = false
    ∧ (processOptions env st).2.errors
        = st.errors ++ [DriverError.singleUnitRequired]
    ∧ DriverError.singleUnitRequired.render
        = "--single-unit must be set when --libraries-inherit-macros is used"
    ∧ (processOptions env st).2.sourceLoader = st.sourceLoader := by
  have hcc : ∃ o1, checkCompat st.options = .ok o1
      ∧ o1.minTypMax = st.options.minTypMax
      ∧ o1.librariesInheritMacros = st.options.librariesInheritMacros
      ∧ o1.singleUnit = st.options.singleUnit := by
    rcases hc with hc | hc
    · exact ⟨st.options, by simp [checkCompat, hc], rfl, rfl, rfl⟩
    · exact ⟨{ st.options with
          allowHierarchicalConst := defaultTrue st.options.allowHierarchicalConst
          allowUseBeforeDeclare := defaultTrue st.options.allowUseBeforeDeclare
          relaxEnumConversions := defaultTrue st.options.relaxEnumConversions },
        by simp [checkCompat, hc], rfl, rfl, rfl⟩
  obtain ⟨o1, hc1, hmt, hlm, hsn⟩ := hcc
  have ht1 : checkTiming o1 = .ok o1 := by
    unfold checkTiming
    rw [hmt]
    rcases ht with h | h | h | h
    · rw [h]
    · rw [h]
      simp
    · rw [h]
      simp
    · rw [h]
      simp
  have hl1 : checkLibInheritMacros o1 = .error .singleUnitRequired := by
    unfold checkLibInheritMacros
    rw [if_pos ⟨by rw [hlm, hl], by rw [hsn]; exact hsu⟩]
  unfold processOptions
  rw [hc1]
  simp only [afterCompat]
  rw [ht1]
  simp only [afterTiming]
  rw [hl1]
  simp only [afterLibInherit]
  simp [pushError, DriverError.render]

/-- C3 witness: the amended statement at a concrete invocation with
only `--libraries-inherit-macros` given. -/
theorem processOptions_libinherit_witness :
    (processOptions envA { stBase with options :=
        { emptyOptions with librariesInheritMacros := some true } }).1 = false
    ∧ (processOptions envA { stBase with options :=
        { emptyOptions with librariesInheritMacros := some true } }).2.errors
        = ({ stBase with options :=
            { emptyOptions with librariesInheritMacros := some true }
            : DriverState }).errors ++ [DriverError.singleUnitRequired]
    ∧ DriverError.singleUnitRequired.render
        = "--single-unit must be set when --libraries-inherit-macros is used"
    ∧ (processOptions envA { stBase with options :=
        { emptyOptions with librariesInheritMacros := some true } }).2.sourceLoader
        = ({ stBase with options :=
            { emptyOptions with librariesInheritMacros := some true }
            : DriverState }).sourceLoader :=
  processOptions_libinherit envA
    { stBase with options := { emptyOptions with librariesInheritMacros := some true } }
    (Or.inl rfl) (Or.inl rfl) rfl rfl

/-- `applyLintDefault` changes only the unknown-modules default. -/
theorem applyLintDefault_fields (o : Options) :
    (applyLintDefault o).allowHierarchicalConst = o.allowHierarchicalConst
    ∧ (applyLintDefault o).allowUseBeforeDeclare = o.allowUseBeforeDeclare
    ∧ (applyLintDefault o).relaxEnumConversions = o.relaxEnumConversions := by
  unfold applyLintDefault
  split
  · exact ⟨rfl, rfl, rfl⟩
  · exact ⟨rfl, rfl, rfl⟩

/-- `applyLintDefault` leaves the library-file list alone. -/
theorem applyLintDefault_libraryFiles (o : Options) :
    (applyLintDefault o).libraryFiles = o.libraryFiles := by
  unfold applyLintDefault
  split
  · rfl
  · rfl

/-- The options recorded by the tail of `processOptions` are the
lint-defaulted options, on every exit path. -/
theorem finishOptions_options (env : DriverEnv) (st : DriverState)
    (o0 : Options) :
    (finishOptions env st o0).2.options = applyLintDefault o0 := by
  simp only [finishOptions]
  split
  · rfl
  · split
    · rfl
    · rfl

/-- Every exit of the time-scale continuation carries the three
vcs-defaultable fields of its input options. -/
theorem afterTimeScale_fields (env : DriverEnv) (st : DriverState)
    (o3 : Options) :
    ((afterTimeScale env st o3
        (checkTimeScale env.timeScaleValid o3)).2.options.allowHierarchicalConst
        = o3.allowHierarchicalConst)
    ∧ ((afterTimeScale env st o3
        (checkTimeScale env.timeScaleValid o3)).2.options.allowUseBeforeDeclare
        = o3.allowUseBeforeDeclare)
    ∧ ((afterTimeScale env st o3
        (checkTimeScale env.timeScaleValid o3)).2.options.relaxEnumConversions
        = o3.relaxEnumConversions) := by
  cases h : checkTimeScale env.timeScaleValid o3 with
  | error e =>
    simp only [afterTimeScale]
    exact ⟨rfl, rfl, rfl⟩
  | ok o4 =>
    have e4 := checkTimeScale_ok_eq h
    simp only [afterTimeScale]
    rw [finishOptions_options, e4]
    exact applyLintDefault_fields o3

/-- Every exit of the libraries-inherit-macros continuation carries the
three vcs-defaultable fields of its input options. -/
theorem afterLibInherit_fields (env : DriverEnv) (st : DriverState)
    (o2 : Options) :
    ((afterLibInherit env st o2
        (checkLibInheritMacros o2)).2.options.allowHierarchicalConst
        = o2.allowHierarchicalConst)
    ∧ ((afterLibInherit env st o2
        (checkLibInheritMacros o2)).2.options.allowUseBeforeDeclare
        = o2.allowUseBeforeDeclare)
    ∧ ((afterLibInherit env st o2
        (checkLibInheritMacros o2)).2.options.relaxEnumConversions
        = o2.relaxEnumConversions) := by
  cases h : checkLibInheritMacros o2 with
  | error e =>
    simp only [afterLibInherit]
    exact ⟨rfl, rfl, rfl⟩
  | ok o3 =>
    have e3 := checkLibInheritMacros_ok_eq h
    simp only [afterLibInherit]
    rw [e3]
    exact afterTimeScale_fields env st o2

/-- Every exit of the timing continuation carries the three
vcs-defaultable fields of its input options. -/
theorem afterTiming_fields (env : DriverEnv) (st : DriverState)
    (o1 : Options) :
    ((afterTiming env st o1
        (checkTiming o1)).2.options.allowHierarchicalConst
        = o1.allowHierarchicalConst)
    ∧ ((afterTiming env st o1
        (checkTiming o1)).2.options.allowUseBeforeDeclare
        = o1.allowUseBeforeDeclare)
    ∧ ((afterTiming env st o1
        (checkTiming o1)).2.options.relaxEnumConversions
        = o1.relaxEnumConversions) := by
  cases h : checkTiming o1 with
  | error e =>
    simp only [afterTiming]
    exact ⟨rfl, rfl, rfl⟩
  | ok o2 =>
    have e2 := checkTiming_ok_eq h
    simp only [afterTiming]
    rw [e2]
    exact afterLibInherit_fields env st o1

/-- With `--compat vcs` the compat check always succeeds. -/
theorem checkCompat_vcs_isOk {o : Options} (hv : o.compat = some "vcs") :
    ∃ o2, checkCompat o = .ok o2 := by
  exact ⟨{ o with
      allowHierarchicalConst := defaultTrue o.allowHierarchicalConst
      allowUseBeforeDeclare := defaultTrue o.allowUseBeforeDeclare
      relaxEnumConversions := defaultTrue o.relaxEnumConversions },
    by simp [checkCompat, hv]⟩

/-- A successful compat check under `--compat vcs` defaults the three
fine-grained options. -/
theorem checkCompat_ok_vcs_fields {o o2 : Options}
    (h : checkCompat o = .ok o2) (hv : o.compat = some "vcs") :
    o2.allowHierarchicalConst = defaultTrue o.allowHierarchicalConst
    ∧ o2.allowUseBeforeDeclare = defaultTrue o.allowUseBeforeDeclare
    ∧ o2.relaxEnumConversions = defaultTrue o.relaxEnumConversions := by
  unfold checkCompat at h
  split at h
  · rename_i heq
    rw [hv] at heq
    exact Option.noConfusion heq
  · rename_i c heq
    rw [hv] at heq
    injection heq with hce
    subst hce
    rw [if_pos rfl] at h
    injection h with h2
    subst h2
    exact ⟨rfl, rfl, rfl⟩

/-- A state whose options request vcs compatibility with one of the
three defaultable options explicitly set false. -/
def stVcs : DriverState :=
  { stBase with options := { emptyOptions with
      compat := some "vcs", relaxEnumConversions := some false } }

/-- C7: the only accepted `--compat` value is vcs — every other value v
makes `processOptions` print exactly "invalid value for compat option:
'v'" and return false with nothing registered — and vcs defaults
allow-hierarchical-const, allow-use-before-declare and
relax-enum-conversions to true exactly when each was not explicitly
set. -/
theorem compat_only_vcs (env : DriverEnv) (st : DriverState) (v : String)
    (hv : st.options.compat = some v) :
    (v ≠ "vcs" →
      (processOptions env st).1 = false
      ∧ (processOptions env st).2.errors
          = st.errors ++ [DriverError.invalidCompat v]
      ∧ (DriverError.invalidCompat v).render
          = "invalid value for compat option: '" ++ v ++ "'"
      ∧ (processOptions env st).2.sourceLoader = st.sourceLoader)
    ∧ (v = "vcs" →
      (processOptions env st).2.options.allowHierarchicalConst
          = defaultTrue st.options.allowHierarchicalConst
      ∧ (processOptions env st).2.options.allowUseBeforeDeclare
          = defaultTrue st.options.allowUseBeforeDeclare
      ∧ (processOptions env st).2.options.relaxEnumConversions
          = defaultTrue st.options.relaxEnumConversions
      ∧ defaultTrue none = some true
      ∧ ∀ b, defaultTrue (some b) = some b) := by
  constructor
  · intro hne
    have hcc : checkCompat st.options = .error (.invalidCompat v) := by
      simp [checkCompat, hv, hne]
    unfold processOptions
    rw [hcc]
    simp only [afterCompat]
    refine ⟨by simp, by simp [pushError], rfl, by simp [pushError]⟩
  · intro hveq
    subst hveq
    obtain ⟨oV, hcr⟩ := checkCompat_vcs_isOk hv
    obtain ⟨g1, g2, g3⟩ := checkCompat_ok_vcs_fields hcr hv
    unfold processOptions
    rw [hcr]
    simp only [afterCompat]
    obtain ⟨f1, f2, f3⟩ := afterTiming_fields env st oV
    exact ⟨f1.trans g1, f2.trans g2, f3.trans g3, rfl, fun b => rfl⟩

/-- C7 witness: `--compat foo` yields exactly the interpolated error;
with `--compat vcs`, an unset option is defaulted to true and an
explicitly false one is kept. -/
theorem compat_only_vcs_witness :
    ((processOptions envA stLibBad).1 = false
     ∧ (processOptions envA stLibBad).2.errors
         = stLibBad.errors ++ [DriverError.invalidCompat "foo"]
     ∧ (DriverError.invalidCompat "foo").render
         = "invalid value for compat option: '" ++ "foo" ++ "'"
     ∧ (processOptions envA stLibBad).2.sourceLoader = stLibBad.sourceLoader)
    ∧ (processOptions envA stVcs).2.options.allowHierarchicalConst
        = defaultTrue stVcs.options.allowHierarchicalConst
    ∧ (processOptions envA stVcs).2.options.relaxEnumConversions
        = defaultTrue stVcs.options.relaxEnumConversions :=
  ⟨(compat_only_vcs envA stLibBad "foo" rfl).1 (by decide),
   ((compat_only_vcs envA stVcs "vcs" rfl).2 rfl).1,
   ((compat_only_vcs envA stVcs "vcs" rfl).2 rfl).2.2.1⟩

/-- `checkCompat` only ever reports an invalid compat value. -/
theorem checkCompat_error_shape {o : Options} {e : DriverError}
    (h : checkCompat o = .error e) : ∃ v, e = .invalidCompat v := by
  unfold checkCompat at h
  split at h
  · exact Except.noConfusion h
  · split at h
    · exact Except.noConfusion h
    · injection h with h2
      exact ⟨_, h2.symm⟩

/-- `checkTiming` only ever reports an invalid timing value. -/
theorem checkTiming_error_shape {o : Options} {e : DriverError}
    (h : checkTiming o = .error e) : ∃ v, e = .invalidTiming v := by
  unfold checkTiming at h
  split at h
  · exact Except.noConfusion h
  · split at h
    · exact Except.noConfusion h
    · injection h with h2
      exact ⟨_, h2.symm⟩

/-- `checkLibInheritMacros` only ever reports the single-unit error. -/
theorem checkLibInheritMacros_error_shape {o : Options} {e : DriverError}
    (h : checkLibInheritMacros o = .error e) : e = .singleUnitRequired := by
  unfold checkLibInheritMacros at h
  split at h
  · injection h with h2
    exact h2.symm
  · exact Except.noConfusion h

/-- `checkTimeScale` only ever reports an invalid time-scale value. -/
theorem checkTimeScale_error_shape {f : String → Bool} {o : Options}
    {e : DriverError} (h : checkTimeScale f o = .error e) :
    ∃ v, e = .invalidTimeScale v := by
  unfold checkTimeScale at h
  split at h
  · exact Except.noConfusion h
  · split at h
    · exact Except.noConfusion h
    · injection h with h2
      exact ⟨_, h2.symm⟩

/-- C10: when the earlier validations pass, no prior load failed and
the loader holds no recorded files or patterns at the check (nothing
recorded before the call and no `-v` files to register during it),
`processOptions` prints exactly "no input files" and returns false; and
whenever a prior load failed, `processOptions` returns false without
ever printing the no-input-files error. -/
theorem processOptions_noInput (env : DriverEnv) (st : DriverState) :
    ((st.options.compat = none ∨ st.options.compat = some "vcs") →
     (st.options.minTypMax = none ∨ st.options.minTypMax = some "min"
        ∨ st.options.minTypMax = some "typ" ∨ st.options.minTypMax = some "max") →
     (st.options.librariesInheritMacros = some true →
        st.options.singleUnit.getD false = true) →
     (∀ ts, st.options.timeScale = some ts → env.timeScaleValid ts = true) →
     st.anyFailedLoads = false →
     st.sourceLoader.filePatterns = [] →
     st.sourceLoader.libraryFilesList = [] →
     st.options.libraryFiles = [] →
       (processOptions env st).1 = false
       ∧ (processOptions env st).2.errors
           = st.errors ++ [DriverError.noInputFiles]
       ∧ DriverError.noInputFiles.render = "no input files")
    ∧ (st.anyFailedLoads = true →
       (processOptions env st).1 = false
       ∧ ((processOptions env st).2.errors = st.errors
          ∨ ∃ e, (processOptions env st).2.errors = st.errors ++ [e]
                 ∧ e ≠ DriverError.noInputFiles)) := by
  constructor
  · intro hc ht hinh htsv hAF hfp hlfl hlib
    have hcc : ∃ o1, checkCompat st.options = .ok o1
        ∧ o1.minTypMax = st.options.minTypMax
        ∧ o1.librariesInheritMacros = st.options.librariesInheritMacros
        ∧ o1.singleUnit = st.options.singleUnit
        ∧ o1.timeScale = st.options.timeScale
        ∧ o1.libraryFiles = st.options.libraryFiles := by
      rcases hc with hc | hc
      · exact ⟨st.options, by simp [checkCompat, hc], rfl, rfl, rfl, rfl, rfl⟩
      · exact ⟨{ st.options with
            allowHierarchicalConst := defaultTrue st.options.allowHierarchicalConst
            allowUseBeforeDeclare := defaultTrue st.options.allowUseBeforeDeclare
            relaxEnumConversions := defaultTrue st.options.relaxEnumConversions },
          by simp [checkCompat, hc], rfl, rfl, rfl, rfl, rfl⟩
    obtain ⟨o1, hc1, hmt, hlm, hsn, htsc, hlibp⟩ := hcc
    have ht1 : checkTiming o1 = .ok o1 := by
      unfold checkTiming
      rw [hmt]
      rcases ht with h | h | h | h
      · rw [h]
      · rw [h]
        simp
      · rw [h]
        simp
      · rw [h]
        simp
    have hl1 : checkLibInheritMacros o1 = .ok o1 := by
      unfold checkLibInheritMacros
      rw [if_neg]
      intro hcon
      obtain ⟨ha, hb⟩ := hcon
      rw [hlm] at ha
      rw [hsn] at hb
      rw [hinh ha] at hb
      exact absurd hb (by decide)
    have hts1 : checkTimeScale env.timeScaleValid o1 = .ok o1 := by
      unfold checkTimeScale
      rw [htsc]
      cases hsc : st.options.timeScale with
      | none => rfl
      | some ts =>
        show (if env.timeScaleValid ts = true then Except.ok o1
              else Except.error (DriverError.invalidTimeScale ts)) = Except.ok o1
        rw [if_pos (htsv ts hsc)]
    have hlf2 : (applyLintDefault o1).libraryFiles = [] := by
      rw [applyLintDefault_libraryFiles, hlibp, hlib]
    have hHF : (loaderAfterRegistration st.sourceLoader
        (applyLintDefault o1)).hasFiles = false := by
      simp [loaderAfterRegistration, registerLibraryFiles,
        SourceLoaderState.hasFiles, hlf2, hfp, hlfl]
    unfold processOptions
    rw [hc1]
    simp only [afterCompat]
    rw [ht1]
    simp only [afterTiming]
    rw [hl1]
    simp only [afterLibInherit]
    rw [hts1]
    simp only [afterTimeScale]
    simp only [finishOptions]
    rw [if_neg (by simp [hAF]), if_pos hHF]
    refine ⟨by simp, by simp [pushError], rfl⟩
  · intro hAF
    unfold processOptions
    cases hc : checkCompat st.options with
    | error e =>
      simp only [afterCompat]
      obtain ⟨v, rfl⟩ := checkCompat_error_shape hc
      exact ⟨by simp, Or.inr ⟨DriverError.invalidCompat v, by simp [pushError],
        fun hcon => DriverError.noConfusion hcon⟩⟩
    | ok o1 =>
      simp only [afterCompat]
      cases htm : checkTiming o1 with
      | error e =>
        simp only [afterTiming]
        obtain ⟨v, rfl⟩ := checkTiming_error_shape htm
        exact ⟨by simp, Or.inr ⟨DriverError.invalidTiming v, by simp [pushError],
          fun hcon => DriverError.noConfusion hcon⟩⟩
      | ok o2 =>
        simp only [afterTiming]
        cases hlb : checkLibInheritMacros o2 with
        | error e =>
          simp only [afterLibInherit]
          obtain rfl := checkLibInheritMacros_error_shape hlb
          exact ⟨by simp, Or.inr ⟨DriverError.singleUnitRequired, by simp [pushError],
            fun hcon => DriverError.noConfusion hcon⟩⟩
        | ok o3 =>
          simp only [afterLibInherit]
          cases hsc : checkTimeScale env.timeScaleValid o3 with
          | error e =>
            simp only [afterTimeScale]
            obtain ⟨v, rfl⟩ := checkTimeScale_error_shape hsc
            exact ⟨by simp, Or.inr ⟨DriverError.invalidTimeScale v, by simp [pushError],
              fun hcon => DriverError.noConfusion hcon⟩⟩
          | ok o4 =>
            simp only [afterTimeScale]
            simp only [finishOptions]
            rw [if_pos hAF]
            exact ⟨by simp, Or.inl (by simp)⟩

/-- C10 witness: a run with nothing recorded prints exactly "no input
files"; a run after a failed load returns false. -/
theorem processOptions_noInput_witness :
    ((processOptions envA stBase).1 = false
     ∧ (processOptions envA stBase).2.errors
         = stBase.errors ++ [DriverError.noInputFiles]
     ∧ DriverError.noInputFiles.render = "no input files")
    ∧ (processOptions envA { stBase with anyFailedLoads := true }).1 = false :=
  ⟨(processOptions_noInput envA stBase).1 (Or.inl rfl) (Or.inl rfl)
      (fun h => absurd h (by decide))
      (by
        intro ts h
        simp [stBase, emptyOptions] at h)
      rfl rfl rfl rfl,
   ((processOptions_noInput envA { stBase with anyFailedLoads := true }).2 rfl).1⟩

/-- C2 witness: limit 7 is doubled to 14 in the bag; the engine limit of
a successful run is the default 20 when unset. -/
theorem errorLimit_doubling_witness :
    (createOptionBag (fun _ => none)
        { emptyOptions with errorLimit := some 7 }).coptions.errorLimit = some 14
    ∧ (createOptionBag (fun _ => none) emptyOptions).coptions.errorLimit = none
    ∧ (processOptions envA stOk).2.engineErrorLimit
        = (processOptions envA stOk).2.options.errorLimit.getD 20 :=
  errorLimit_doubling (fun _ => none) { emptyOptions with errorLimit := some 7 }
    emptyOptions 7 envA stOk rfl rfl (by decide)

/-- An integer-base token reached while a digit run is being copied
does not start a new run: it is not a possible vector digit, so it
falls out of the copying loop, passes unchanged through the
obfuscation check, and the loop continues in normal mode. -/
theorem ppLoop_afterBase_base {σ : Type} (R : Rng σ) (obf : Bool)
    (b : Token) (rest : List Token) (g : σ) (m : List (String × String))
    (hb : b.kind = .IntegerBase) :
    ppLoop R obf .afterBase (b :: rest) g m
      = (b :: (ppLoop R obf .normal rest g m).1,
         (ppLoop R obf .normal rest g m).2) := by
  have h1 : ¬(PPMode.afterBase = PPMode.afterBase ∧
      isPossibleVectorDigit b.kind = true) := by
    intro hcon
    rw [hb] at hcon
    exact absurd hcon.2 (by decide)
  have h2 : ¬(PPMode.afterBase = PPMode.normal ∧
      b.kind = TokenKind.IntegerBase) := by
    intro hcon
    exact PPMode.noConfusion hcon.1
  have hstep : obfStep R obf b g m = (b, g, m) := by
    unfold obfStep
    rw [if_neg]
    intro hcon
    rw [hb] at hcon
    exact TokenKind.noConfusion hcon.2
  conv_lhs => rw [ppLoop]
  rw [if_neg h1, if_neg h2]
  dsimp only
  rw [hstep]
  rw [if_neg (show ¬((b, g, m).1.kind = TokenKind.EndOfFile) from by
    show ¬(b.kind = TokenKind.EndOfFile)
    rw [hb]
    decide)]

/-- C5 counterexample: for the stream of `4'b1010 8'hff` —
`4, 'b, 1010, 8, 'h, ff` — the emitted IntegerBase token `'h`
terminates the run begun by `'b`, and the possible-vector-digit token
`ff` immediately following it is obfuscated rather than printed
verbatim, falsifying the claim that this holds whenever an IntegerBase
token is emitted. -/
theorem integerBase_vector_digit_cex :
    isPossibleVectorDigit TokenKind.Identifier = true
    ∧ ("ff" : String) ≠ "0000000000000000"
    ∧ (ppLoop constRng true .normal
        [⟨.IntegerLiteral, "4"⟩, ⟨.IntegerBase, "'b"⟩,
         ⟨.IntegerLiteral, "1010"⟩, ⟨.IntegerLiteral, "8"⟩,
         ⟨.IntegerBase, "'h"⟩, ⟨.Identifier, "ff"⟩,
         ⟨.EndOfFile, ""⟩] () []).1
      = [⟨.IntegerLiteral, "4"⟩, ⟨.IntegerBase, "'b"⟩,
         ⟨.IntegerLiteral, "1010"⟩, ⟨.IntegerLiteral, "8"⟩,
         ⟨.IntegerBase, "'h"⟩, ⟨.Identifier, "0000000000000000"⟩,
         ⟨.EndOfFile, ""⟩] := by
  decide

/-- C5 (amended): in `runPreprocessor`, after a token of kind
IntegerBase fetched at the top of the token loop — not itself consumed
as the terminator of a preceding digit run — every immediately
following token whose kind is a possible vector digit is printed
verbatim, with the generator and obfuscation map untouched, until the
first non-digit token, which is handed to the normal
(obfuscation-checking) handling; this holds whether or not obfuscation
is enabled, in particular when it is.  An IntegerBase token that
terminates a preceding digit run, by contrast, is emitted without
starting a new verbatim run: the loop continues in normal mode, so a
possible vector digit right after it is subject to obfuscation. -/
theorem integerBase_digits_verbatim {σ : Type} (R : Rng σ) (obf : Bool)
    (b : Token) (ds rest rest2 : List Token) (g g2 : σ)
    (m m2 : List (String × String))
    (hb : b.kind = .IntegerBase)
    (hd : ∀ d ∈ ds, isPossibleVectorDigit d.kind = true) :
    ppLoop R obf .normal (b :: (ds ++ rest)) g m
      = (b :: (ds ++ (ppLoop R obf .afterBase rest g m).1),
         (ppLoop R obf .afterBase rest g m).2)
    ∧ ppLoop R obf .afterBase (b :: rest2) g2 m2
      = (b :: (ppLoop R obf .normal rest2 g2 m2).1,
         (ppLoop R obf .normal rest2 g2 m2).2) := by
  constructor
  · have hnb : ¬(PPMode.normal = PPMode.afterBase ∧
        isPossibleVectorDigit b.kind = true) := by
      intro hcon
      exact PPMode.noConfusion hcon.1
    simp [ppLoop, hb, ppLoop_afterBase_digits R obf ds rest g m hd]
  · exact ppLoop_afterBase_base R obf b rest2 g2 m2 hb

/-- C5 witness: the digits `1010` after the `4'b` base are emitted
verbatim even with obfuscation on; the same base token met at the end
of a digit run hands the loop back to normal mode. -/
theorem integerBase_digits_verbatim_witness :
    (ppLoop constRng true .normal
        [⟨.IntegerBase, "4'b"⟩, ⟨.IntegerLiteral, "1010"⟩, ⟨.EndOfFile, ""⟩] () []
      = (⟨.IntegerBase, "4'b"⟩ ::
          ([⟨.IntegerLiteral, "1010"⟩]
            ++ (ppLoop constRng true .afterBase [⟨.EndOfFile, ""⟩] () []).1),
         (ppLoop constRng true .afterBase [⟨.EndOfFile, ""⟩] () []).2))
    ∧ ppLoop constRng true .afterBase
        [⟨.IntegerBase, "4'b"⟩, ⟨.Identifier, "ff"⟩, ⟨.EndOfFile, ""⟩] () []
      = (⟨.IntegerBase, "4'b"⟩ ::
          (ppLoop constRng true .normal
            [⟨.Identifier, "ff"⟩, ⟨.EndOfFile, ""⟩] () []).1,
         (ppLoop constRng true .normal
            [⟨.Identifier, "ff"⟩, ⟨.EndOfFile, ""⟩] () []).2) :=
  integerBase_digits_verbatim constRng true ⟨.IntegerBase, "4'b"⟩
    [⟨.IntegerLiteral, "1010"⟩] [⟨.EndOfFile, ""⟩]
    [⟨.Identifier, "ff"⟩, ⟨.EndOfFile, ""⟩] () () [] [] rfl (by decide)

/-- C6: `runPreprocessor` buffers the preprocessor diagnostics; when at
least one is an error it prints the full report to stderr and fails
without emitting the output, and otherwise it prints the preprocessed
output to stdout and succeeds. -/
theorem runPreprocessor_diagGate {σ : Type} (R : Rng σ) (g : σ) (obf : Bool)
    (tokens : List Token) (diags : List Diag) (reportAll : String) :
    (diags.any (fun d => d.isError) = true →
      runPreprocessor R g obf tokens diags reportAll
        = { success := false, stdoutText := [], stderrText := [reportAll] })
    ∧ (diags.any (fun d => d.isError) = false →
      runPreprocessor R g obf tokens diags reportAll
        = { success := true
            stdoutText :=
              [renderTokens (ppLoop R obf .normal tokens g []).1 ++ "\n"]
            stderrText := [] }) := by
  unfold runPreprocessor
  exact reportOrEmit_spec reportAll
    (renderTokens (ppLoop R obf .normal tokens g []).1) diags

/-- C6 witness: one buffered error suppresses the output; with no
errors the output is emitted. -/
theorem runPreprocessor_diagGate_witness :
    runPreprocessor constRng () false [⟨.EndOfFile, ""⟩] [⟨true⟩] "report"
      = { success := false, stdoutText := [], stderrText := ["report"] }
    ∧ runPreprocessor constRng () false [⟨.EndOfFile, ""⟩] [⟨false⟩] "report"
      = { success := true
          stdoutText :=
            [renderTokens (ppLoop constRng false .normal [⟨.EndOfFile, ""⟩] () []).1 ++ "\n"]
          stderrText := [] } :=
  ⟨(runPreprocessor_diagGate constRng () false [⟨.EndOfFile, ""⟩] [⟨true⟩] "report").1
      (by decide),
   (runPreprocessor_diagGate constRng () false [⟨.EndOfFile, ""⟩] [⟨false⟩] "report").2
      (by decide)⟩

/-- C8: `processCommandFile` for a `-F` file (makeRelative true)
restores the working directory to its pre-switch value on every exit
path — whatever the re-parse does and whether or not it fails — and for
`-f` files (makeRelative false) it never changes the working directory,
provided the re-parse itself leaves the directory where it found it (as
nested command files do by this very property). -/
theorem processCommandFile_cwd (env : CommandFileEnv)
    (parse : List Char → String → Bool × String)
    (fileName : String) (cwd : String)
    (hp : ∀ args c, (parse args c).2 = c) :
    (processCommandFile env parse fileName true cwd).2 = cwd
    ∧ (processCommandFile env parse fileName false cwd).2 = cwd := by
  unfold processCommandFile
  cases hc : env.canonicalPath fileName with
  | none => exact ⟨rfl, rfl⟩
  | some path =>
    cases hr : env.readFile path with
    | none => simp [hr]
    | some buffer => simp [hr, hp]

/-- C8 witness: a concrete filesystem in which the command file exists,
with a re-parse that fails; the directory is restored for `-F` and
untouched for `-f`. -/
theorem processCommandFile_cwd_witness :
    (processCommandFile
        { canonicalPath := fun s => some s
          readFile := fun _ => some ['x', '\x00']
          parentPath := fun _ => "/elsewhere" }
        (fun _ c => (false, c)) "cmd.f" true "/start").2 = "/start"
    ∧ (processCommandFile
        { canonicalPath := fun s => some s
          readFile := fun _ => some ['x', '\x00']
          parentPath := fun _ => "/elsewhere" }
        (fun _ c => (false, c)) "cmd.f" false "/start").2 = "/start" :=
  processCommandFile_cwd
    { canonicalPath := fun s => some s
      readFile := fun _ => some ['x', '\x00']
      parentPath := fun _ => "/elsewhere" }
    (fun _ c => (false, c)) "cmd.f" "/start" (fun _ _ => rfl)

/-- An in-range `getD` returns a member of the list. -/
theorem getD_mem_of_lt {α : Type} (l : List α) (i : Nat) (d : α)
    (h : i < l.length) : l.getD i d ∈ l := by
  induction l generalizing i with
  | nil => cases h
  | cons a t ih =>
    cases i with
    | zero => exact List.mem_cons_self a t
    | succ j => exact List.mem_cons_of_mem a (ih j (Nat.lt_of_succ_lt_succ h))

/-- Generated strings have the requested length and stay inside the
62-glyph alphabet. -/
theorem generateRandomAlphanumericString_spec {σ : Type} (R : Rng σ) :
    ∀ (n : Nat) (g : σ),
      (generateRandomAlphanumericString R g n).1.length = n
      ∧ ∀ c ∈ (generateRandomAlphanumericString R g n).1, c ∈ alphanumChars := by
  intro n
  induction n with
  | zero =>
    intro g
    exact ⟨rfl, fun c hc => absurd hc (List.not_mem_nil c)⟩
  | succ n ih =>
    intro g
    constructor
    · show ((alphanumChars.getD (getUniformIntDist R g 0 (alphanumChars.length - 1)).1 ' ')
          :: (generateRandomAlphanumericString R
              (getUniformIntDist R g 0 (alphanumChars.length - 1)).2 n).1).length = n + 1
      rw [List.length_cons, (ih _).1]
    · intro c hc
      have hc2 : c ∈ (alphanumChars.getD
            (getUniformIntDist R g 0 (alphanumChars.length - 1)).1 ' ')
          :: (generateRandomAlphanumericString R
              (getUniformIntDist R g 0 (alphanumChars.length - 1)).2 n).1 := hc
      rcases List.mem_cons.mp hc2 with hc3 | hc3

      · subst hc3
        refine getD_mem_of_lt alphanumChars _ ' ' ?_
        show 0 + (R.next g).1 % (alphanumChars.length - 1 + 1 - 0) < alphanumChars.length
        have h62 : alphanumChars.length = 62 := by decide
        rw [h62]
        show 0 + (R.next g).1 % 62 < 62
        rw [Nat.zero_add]
        exact Nat.mod_lt _ (by decide)
      · exact (ih _).2 c hc3

/-- Well-formedness of an obfuscation map: every recorded replacement is
a 16-character alphanumeric string. -/
def obfMapWF (m : List (String × String)) : Prop :=
  ∀ kv ∈ m, kv.2.length = 16 ∧ ∀ c ∈ kv.2.toList, c ∈ alphanumChars

/-- The obfuscation step keeps the map well-formed. -/
theorem obfStep_wf {σ : Type} (R : Rng σ) (obf : Bool) (t : Token) (g : σ)
    (m : List (String × String)) (hm : obfMapWF m) :
    obfMapWF (obfStep R obf t g m).2.2 := by
  unfold obfStep
  split
  · cases hl : m.lookup t.text with
    | some tr => exact hm
    | none =>
      intro kv hkv
      have hkv2 : kv = (t.text,
            String.mk (generateRandomAlphanumericString R g 16).1)
          ∨ kv ∈ m := List.mem_cons.mp hkv
      rcases hkv2 with hkv2 | hkv2
      · subst hkv2
        exact ⟨(generateRandomAlphanumericString_spec R 16 g).1,
          (generateRandomAlphanumericString_spec R 16 g).2⟩
      · exact hm kv hkv2
  · exact hm

/-- The token loop keeps the obfuscation map well-formed. -/
theorem ppLoop_wf {σ : Type} (R : Rng σ) (obf : Bool) :
    ∀ (ts : List Token) (mode : PPMode) (g : σ) (m : List (String × String)),
      obfMapWF m → obfMapWF (ppLoop R obf mode ts g m).2.2 := by
  intro ts
  induction ts with
  | nil => intro mode g m hm; exact hm
  | cons t rest ih =>
    intro mode g m hm
    unfold ppLoop
    split
    · exact ih .afterBase g m hm
    · split
      · exact ih .afterBase g m hm
      · dsimp only
        split
        · exact obfStep_wf R obf t g m hm
        · exact ih .normal _ _ (obfStep_wf R obf t g m hm)

/-- Looking up one key is unaffected by prepending a binding for a key
that was absent. -/
theorem lookup_cons_ne {m : List (String × String)} {k a c v : String}
    (h : m.lookup k = some v) (ha : m.lookup a = none) :
    ((a, c) :: m).lookup k = some v := by
  have hne : (k == a) = false := by
    cases hkb : k == a with
    | true =>
      have hka : k = a := eq_of_beq hkb
      rw [hka] at h
      rw [h] at ha
      exact Option.noConfusion ha
    | false => rfl
  simp [List.lookup, hne, h]

/-- The obfuscation step never changes an existing binding. -/
theorem obfStep_lookup_preserve {σ : Type} (R : Rng σ) (obf : Bool)
    (t : Token) (g : σ) (m : List (String × String)) (k v : String)
    (h : m.lookup k = some v) :
    ((obfStep R obf t g m).2.2).lookup k = some v := by
  unfold obfStep
  split
  · cases hl : m.lookup t.text with
    | some tr => exact h
    | none => exact lookup_cons_ne h hl
  · exact h

/-- The token loop never changes an existing binding, so a source
identifier keeps its replacement for the rest of the run. -/
theorem ppLoop_lookup_preserve {σ : Type} (R : Rng σ) (obf : Bool) :
    ∀ (ts : List Token) (mode : PPMode) (g : σ) (m : List (String × String))
      (k v : String), m.lookup k = some v →
      ((ppLoop R obf mode ts g m).2.2).lookup k = some v := by
  intro ts
  induction ts with
  | nil => intro mode g m k v h; exact h
  | cons t rest ih =>
    intro mode g m k v h
    unfold ppLoop
    split
    · exact ih .afterBase g m k v h
    · split
      · exact ih .afterBase g m k v h
      · dsimp only
        split
        · exact obfStep_lookup_preserve R obf t g m k v h
        · exact ih .normal _ _ k v (obfStep_lookup_preserve R obf t g m k v h)

/-- An identifier with a recorded replacement is rewritten to exactly
that replacement, and the map is unchanged. -/
theorem obfStep_existing {σ : Type} (R : Rng σ) (t : Token) (g : σ)
    (m : List (String × String)) (v : String)
    (hk : t.kind = .Identifier) (h : m.lookup t.text = some v) :
    (obfStep R true t g m).1.text = v ∧ (obfStep R true t g m).2.2 = m := by
  unfold obfStep
  rw [if_pos ⟨rfl, hk⟩, h]
  exact ⟨rfl, rfl⟩

/-- An identifier seen for the first time is rewritten to a freshly
generated 16-character string, which is recorded in the map. -/
theorem obfStep_fresh {σ : Type} (R : Rng σ) (t : Token) (g : σ)
    (m : List (String × String))
    (hk : t.kind = .Identifier) (h : m.lookup t.text = none) :
    (obfStep R true t g m).1.text
        = String.mk (generateRandomAlphanumericString R g 16).1
    ∧ (obfStep R true t g m).2.2
        = (t.text, String.mk (generateRandomAlphanumericString R g 16).1) :: m := by
  unfold obfStep
  rw [if_pos ⟨rfl, hk⟩, h]
  exact ⟨rfl, rfl⟩

/-- C4 (amended): with obfuscation enabled, every replacement recorded
by a run is a 16-character string over the 62-glyph alphabet; an
identifier's first occurrence is replaced by a freshly generated string
which is recorded; recorded bindings are never changed, and every later
occurrence of the identifier is replaced by its recorded string — the
same source identifier always receives the same replacement within a
run; the loop is a pure function of the generator seed and the input,
so the fixed seed reproduces the mapping across runs; but distinct
source identifiers are not guaranteed distinct replacements, because
the code never checks the generated strings for collisions. -/
theorem obfuscation_map_properties {σ : Type} (R : Rng σ) (g : σ)
    (ts : List Token) (t : Token) (m : List (String × String))
    (g2 : σ) (k v : String) (mode : PPMode)
    (hk : t.kind = .Identifier) :
    (∀ kv ∈ (ppLoop R true .normal ts g []).2.2,
        kv.2.length = 16 ∧ ∀ c ∈ kv.2.toList, c ∈ alphanumChars)
    ∧ (m.lookup k = some v →
        ((ppLoop R true mode ts g2 m).2.2).lookup k = some v)
    ∧ (m.lookup t.text = some v →
        (obfStep R true t g2 m).1.text = v
        ∧ (obfStep R true t g2 m).2.2 = m)
    ∧ (m.lookup t.text = none →
        (obfStep R true t g2 m).1.text
            = String.mk (generateRandomAlphanumericString R g2 16).1
        ∧ (obfStep R true t g2 m).2.2
            = (t.text, String.mk (generateRandomAlphanumericString R g2 16).1) :: m)
    ∧ (∀ g3 g4, g3 = g4 →
        ppLoop R true .normal ts g3 [] = ppLoop R true .normal ts g4 []) := by
  refine ⟨?_, ?_, ?_, ?_, ?_⟩
  · exact ppLoop_wf R true ts .normal g []
      (fun kv hkv => absurd hkv (List.not_mem_nil kv))
  · exact fun h => ppLoop_lookup_preserve R true ts mode g2 m k v h
  · exact fun h => obfStep_existing R t g2 m v hk h
  · exact fun h => obfStep_fresh R t g2 m hk h
  · intro g3 g4 he
    rw [he]

/-- C4 counterexample: with the degenerate generator, the two distinct
identifiers `a` and `b` both receive the replacement
`0000000000000000` — the code does not enforce that distinct source
identifiers map to distinct replacements. -/
theorem obfuscation_not_injective_cex :
    ((ppLoop constRng true .normal
        [⟨.Identifier, "a"⟩, ⟨.Identifier, "b"⟩, ⟨.EndOfFile, ""⟩]
        () []).2.2).lookup "a" = some "0000000000000000"
    ∧ ((ppLoop constRng true .normal
        [⟨.Identifier, "a"⟩, ⟨.Identifier, "b"⟩, ⟨.EndOfFile, ""⟩]
        () []).2.2).lookup "b" = some "0000000000000000"
    ∧ "a" ≠ "b" := by
  decide

/-- C4 witness: an already-seen identifier keeps its recorded
replacement, and the map built by a concrete run is 16-character
alphanumeric throughout. -/
theorem obfuscation_map_properties_witness :
    ((obfStep constRng true ⟨.Identifier, "x"⟩ ()
        [("x", "pqrstIJKLM012345")]).1.text = "pqrstIJKLM012345"
      ∧ (obfStep constRng true ⟨.Identifier, "x"⟩ ()
        [("x", "pqrstIJKLM012345")]).2.2 = [("x", "pqrstIJKLM012345")])
    ∧ ∀ kv ∈ (ppLoop constRng true .normal
        [⟨.Identifier, "x"⟩, ⟨.EndOfFile, ""⟩] () []).2.2,
        kv.2.length = 16 ∧ ∀ c ∈ kv.2.toList, c ∈ alphanumChars :=
  ⟨(obfuscation_map_properties constRng ()
      [⟨.Identifier, "x"⟩, ⟨.EndOfFile, ""⟩] ⟨.Identifier, "x"⟩
      [("x", "pqrstIJKLM012345")] () "x" "pqrstIJKLM012345" .normal rfl).2.2.1
      (by decide),
   (obfuscation_map_properties constRng ()
      [⟨.Identifier, "x"⟩, ⟨.EndOfFile, ""⟩] ⟨.Identifier, "x"⟩
      [("x", "pqrstIJKLM012345")] () "x" "pqrstIJKLM012345" .normal rfl).1⟩

end SlangDriver
